import Mathlib

/-!
Verification development for the scraper TUI database client
(`src/tui/clients/db_client.py`): a shallow embedding of the SQLite-backed
read-model queries, the command-queue write path and the connection
lifecycle, together with theorems settling the specification claims.

Stored rows model SQLite rows: nullable columns are `Option`; timestamps are
kept in their stored text encoding; booleans are stored integers.
-/

namespace Scrooper

/-! ## Python semantics helpers

`py_or_int x d` models the Python expression `x or d` for an int-or-None
value `x` (both `None` and `0` are falsy).  `py_bool` models `bool(x)` for
an int-or-None value, `py_truthy_str` models `if s:` for a str-or-None
value, and `py_truthy_params` models `if params:` for a dict-or-None value.
-/

def py_or_int (x : Option Int) (d : Int) : Int :=
  match x with
  | none => d
  | some v => if v = 0 then d else v

def py_or_rat (x : Option Rat) (d : Rat) : Rat :=
  match x with
  | none => d
  | some v => if v = 0 then d else v

def py_bool (x : Option Int) : Bool :=
  match x with
  | none => false
  | some v => v != 0

def py_truthy_str (x : Option String) : Bool :=
  match x with
  | none => false
  | some s => s != ""

/-! ## SQLite comparison on nullable text columns

SQLite orders NULL below every non-NULL value; TEXT values compare by
memcmp on their UTF-8 bytes under the default BINARY collation, which is
code-point lexicographic order.  `lexLeB` is that order on character
lists; `sqlLeB`/`sqlLtB` give the resulting order on an `Option String`
column, used by `ORDER BY` and the latest-snapshot subquery. -/

def lexLeB : List Char → List Char → Bool
  | [], _ => true
  | _ :: _, [] => false
  | a :: as, b :: bs =>
    if a = b then lexLeB as bs else decide (a.toNat < b.toNat)

theorem char_eq_of_toNat_eq {a b : Char} (h : a.toNat = b.toNat) : a = b := by
  unfold Char.toNat at h
  apply Char.ext
  exact UInt32.toNat.inj h

theorem lexLeB_refl (l : List Char) : lexLeB l l = true := by
  induction l with
  | nil => rfl
  | cons a as ih => simp [lexLeB, ih]

theorem lexLeB_total (a b : List Char) : lexLeB a b = true ∨ lexLeB b a = true := by
  induction a generalizing b with
  | nil => exact Or.inl rfl
  | cons x xs ih =>
    cases b with
    | nil => exact Or.inr rfl
    | cons y ys =>
      by_cases hxy : x = y
      · subst hxy
        simp only [lexLeB, if_pos rfl]
        exact ih ys
      · have hyx : ¬y = x := fun h => hxy h.symm
        have hnat : x.toNat ≠ y.toNat := fun h => hxy (char_eq_of_toNat_eq h)
        simp only [lexLeB, if_neg hxy, if_neg hyx, decide_eq_true_eq]
        omega

theorem lexLeB_trans {a b c : List Char}
    (h1 : lexLeB a b = true) (h2 : lexLeB b c = true) : lexLeB a c = true := by
  induction a generalizing b c with
  | nil => rfl
  | cons x xs ih =>
    cases b with
    | nil => exact absurd h1 (by simp [lexLeB])
    | cons y ys =>
      cases c with
      | nil => exact absurd h2 (by simp [lexLeB])
      | cons z zs =>
        by_cases hxy : x = y
        · subst hxy
          rw [lexLeB, if_pos rfl] at h1
          by_cases hyz : x = z
          · subst hyz
            rw [lexLeB, if_pos rfl] at h2
            rw [lexLeB, if_pos rfl]
            exact ih h1 h2
          · rw [lexLeB, if_neg hyz] at h2
            rw [lexLeB, if_neg hyz]
            exact h2
        · rw [lexLeB, if_neg hxy, decide_eq_true_eq] at h1
          by_cases hyz : y = z
          · subst hyz
            rw [lexLeB, if_neg hxy, decide_eq_true_eq]
            exact h1
          · rw [lexLeB, if_neg hyz, decide_eq_true_eq] at h2
            have hxz : ¬x = z := by
              intro h
              subst h
              omega
            rw [lexLeB, if_neg hxz, decide_eq_true_eq]
            omega

def strLeB (a b : String) : Bool := lexLeB a.data b.data

def sqlLeB (a b : Option String) : Bool :=
  match a, b with
  | none, _ => true
  | some _, none => false
  | some x, some y => strLeB x y

def sqlLtB (a b : Option String) : Bool :=
  !(sqlLeB b a)

def sqlLe (a b : Option String) : Prop := sqlLeB a b = true

def sqlLt (a b : Option String) : Prop := sqlLtB a b = true

instance : DecidableRel sqlLe := fun a b => by
  unfold sqlLe; infer_instance

instance : DecidableRel sqlLt := fun a b => by
  unfold sqlLt; infer_instance

theorem sqlLeB_refl (a : Option String) : sqlLeB a a = true := by
  cases a with
  | none => rfl
  | some x => simp [sqlLeB, strLeB, lexLeB_refl]

theorem sqlLeB_total (a b : Option String) : sqlLeB a b = true ∨ sqlLeB b a = true := by
  cases a with
  | none => exact Or.inl rfl
  | some x =>
    cases b with
    | none => exact Or.inr rfl
    | some y =>
      simp only [sqlLeB]
      exact lexLeB_total x.data y.data

theorem sqlLeB_trans {a b c : Option String}
    (h1 : sqlLeB a b = true) (h2 : sqlLeB b c = true) : sqlLeB a c = true := by
  cases a with
  | none => rfl
  | some x =>
    cases b with
    | none => simp [sqlLeB] at h1
    | some y =>
      cases c with
      | none => simp [sqlLeB] at h2
      | some z =>
        simp only [sqlLeB] at h1 h2 ⊢
        exact lexLeB_trans h1 h2

theorem sqlLtB_irrefl (a : Option String) : sqlLtB a a = false := by
  simp [sqlLtB, sqlLeB_refl]

theorem sqlLtB_asymm {a b : Option String} (h : sqlLtB a b = true) :
    sqlLtB b a = false := by
  simp only [sqlLtB, Bool.not_eq_true'] at h
  rcases sqlLeB_total a b with h' | h'
  · simp [sqlLtB, h']
  · rw [h'] at h; exact absurd h (by simp)

theorem sqlLe_of_not_sqlLt {a b : Option String} (h : sqlLtB a b = false) :
    sqlLeB b a = true := by
  simpa [sqlLtB] using h

/-! ## Timestamps

`DateTime` models a Python `datetime` value as produced by
`datetime.fromisoformat`: a wall-clock reading plus an optional UTC offset
in minutes.  `fromisoformat` models the stdlib parser restricted to the
encodings the worker writes: `YYYY-MM-DD`, optionally followed by a `T` or
space separator, `HH:MM` or `HH:MM:SS`, and an optional `+HH:MM`/`-HH:MM`
offset (no fractional seconds). -/

structure DateTime where
  year : Nat
  month : Nat
  day : Nat
  hour : Nat
  minute : Nat
  second : Nat
  offsetMinutes : Option Int
deriving DecidableEq, Repr

def digitVal (c : Char) : Option Nat :=
  if c.isDigit then some (c.toNat - 48) else none

def read2 (cs : List Char) : Option (Nat × List Char) :=
  match cs with
  | c1 :: c2 :: rest =>
    match digitVal c1, digitVal c2 with
    | some d1, some d2 => some (d1 * 10 + d2, rest)
    | _, _ => none
  | _ => none

def read4 (cs : List Char) : Option (Nat × List Char) :=
  match read2 cs with
  | some (hi, rest) =>
    match read2 rest with
    | some (lo, rest2) => some (hi * 100 + lo, rest2)
    | none => none
  | none => none

def readDate (cs : List Char) : Option (Nat × Nat × Nat × List Char) :=
  match read4 cs with
  | some (y, '-' :: r1) =>
    match read2 r1 with
    | some (mo, '-' :: r2) =>
      match read2 r2 with
      | some (d, r3) =>
        if 1 ≤ mo ∧ mo ≤ 12 ∧ 1 ≤ d ∧ d ≤ 31 then some (y, mo, d, r3) else none
      | _ => none
    | _ => none
  | _ => none

def readTime (cs : List Char) : Option (Nat × Nat × Nat × List Char) :=
  match read2 cs with
  | some (h, ':' :: r1) =>
    match read2 r1 with
    | some (mi, r2) =>
      if h ≤ 23 ∧ mi ≤ 59 then
        match r2 with
        | ':' :: r3 =>
          match read2 r3 with
          | some (s, r4) => if s ≤ 59 then some (h, mi, s, r4) else none
          | none => none
        | _ => some (h, mi, 0, r2)
      else none
    | none => none
  | _ => none

def readOffset (cs : List Char) : Option (Option Int) :=
  match cs with
  | [] => some none
  | '+' :: rest =>
    match read2 rest with
    | some (h, ':' :: r1) =>
      match read2 r1 with
      | some (mi, []) =>
        if h ≤ 23 ∧ mi ≤ 59 then some (some ((h : Int) * 60 + mi)) else none
      | _ => none
    | _ => none
  | '-' :: rest =>
    match read2 rest with
    | some (h, ':' :: r1) =>
      match read2 r1 with
      | some (mi, []) =>
        if h ≤ 23 ∧ mi ≤ 59 then some (some (-((h : Int) * 60 + mi))) else none
      | _ => none
    | _ => none
  | _ => none

def fromisoformat (s : String) : Option DateTime :=
  match readDate s.data with
  | none => none
  | some (y, mo, d, rest) =>
    match rest with
    | [] => some ⟨y, mo, d, 0, 0, 0, none⟩
    | sep :: rest2 =>
      if sep = 'T' ∨ sep = ' ' then
        match readTime rest2 with
        | none => none
        | some (h, mi, sec, rest3) =>
          match readOffset rest3 with
          | none => none
          | some off => some ⟨y, mo, d, h, mi, sec, off⟩
      else none

/-- Model of `value.replace("Z", "+00:00")` on the character list. -/
def replaceZChars : List Char → List Char
  | [] => []
  | c :: cs =>
    if c = 'Z' then '+' :: '0' :: '0' :: ':' :: '0' :: '0' :: replaceZChars cs
    else c :: replaceZChars cs

def replaceZ (s : String) : String := String.mk (replaceZChars s.data)

/-- `DatabaseClient._parse_datetime`: falsy values (NULL or the empty
string) give `None`; otherwise the text has `"Z"` replaced by `"+00:00"`
and is handed to `fromisoformat`, any parse failure being absorbed into
`None`. -/
def parse_datetime (value : Option String) : Option DateTime :=
  match value with
  | none => none
  | some s => if s = "" then none else fromisoformat (replaceZ s)

/-! ## JSON

`JsonVal` models a decoded Python JSON value; `json_loads` models
`json.loads` restricted to the payload shapes the worker writes (objects,
arrays, strings with simple escapes, integers, booleans, null — no
fractional or exponent numbers), returning `none` where the stdlib decoder
raises `JSONDecodeError`.  `json_dumps` models `json.dumps` on the
string-to-string parameter dictionaries produced by the command wrappers
(default separators, no characters needing escapes). -/

inductive JsonVal where
  | null : JsonVal
  | bool : Bool → JsonVal
  | num : Int → JsonVal
  | str : String → JsonVal
  | arr : List JsonVal → JsonVal
  | obj : List (String × JsonVal) → JsonVal

def jsonWs (c : Char) : Bool :=
  c = ' ' || c = '\t' || c = '\n' || c = '\r'

def skipWs (cs : List Char) : List Char :=
  cs.dropWhile jsonWs

def unescapeChar (c : Char) : Option Char :=
  match c with
  | '"' => some '"'
  | '\\' => some '\\'
  | '/' => some '/'
  | 'n' => some '\n'
  | 't' => some '\t'
  | 'r' => some '\r'
  | 'b' => some (Char.ofNat 8)
  | 'f' => some (Char.ofNat 12)
  | _ => none

/-- Read the body of a JSON string after the opening quote. -/
def readStrChars : List Char → Option (List Char × List Char)
  | [] => none
  | '"' :: rest => some ([], rest)
  | '\\' :: c :: rest =>
    match unescapeChar c, readStrChars rest with
    | some u, some (body, rest2) => some (u :: body, rest2)
    | _, _ => none
  | c :: rest =>
    match readStrChars rest with
    | some (body, rest2) => some (c :: body, rest2)
    | none => none

def readDigits (cs : List Char) (acc : Nat) : Nat × List Char :=
  match cs with
  | [] => (acc, [])
  | c :: rest =>
    match digitVal c with
    | some d => readDigits rest (acc * 10 + d)
    | none => (acc, cs)

def readNat (cs : List Char) : Option (Nat × List Char) :=
  match cs with
  | c :: _ =>
    match digitVal c with
    | some _ => some (readDigits cs 0)
    | none => none
  | [] => none

def readInt (cs : List Char) : Option (Int × List Char) :=
  match cs with
  | '-' :: rest =>
    match readNat rest with
    | some (n, rest2) => some (-(n : Int), rest2)
    | none => none
  | _ =>
    match readNat cs with
    | some (n, rest) => some ((n : Int), rest)
    | none => none

mutual

def readVal : Nat → List Char → Option (JsonVal × List Char)
  | 0, _ => none
  | Nat.succ fuel, cs =>
    match skipWs cs with
    | 'n' :: 'u' :: 'l' :: 'l' :: rest => some (.null, rest)
    | 't' :: 'r' :: 'u' :: 'e' :: rest => some (.bool true, rest)
    | 'f' :: 'a' :: 'l' :: 's' :: 'e' :: rest => some (.bool false, rest)
    | '"' :: rest =>
      match readStrChars rest with
      | some (body, rest2) => some (.str (String.mk body), rest2)
      | none => none
    | '[' :: rest =>
      match skipWs rest with
      | ']' :: rest2 => some (.arr [], rest2)
      | _ =>
        match readItems fuel rest with
        | some (items, rest2) => some (.arr items, rest2)
        | none => none
    | '\x7b' :: rest =>
      match skipWs rest with
      | '\x7d' :: rest2 => some (.obj [], rest2)
      | _ =>
        match readMembers fuel rest with
        | some (members, rest2) => some (.obj members, rest2)
        | none => none
    | cs' =>
      match readInt cs' with
      | some (n, rest) => some (.num n, rest)
      | none => none

def readItems : Nat → List Char → Option (List JsonVal × List Char)
  | 0, _ => none
  | Nat.succ fuel, cs =>
    match readVal fuel cs with
    | none => none
    | some (v, rest) =>
      match skipWs rest with
      | ',' :: rest2 =>
        match readItems fuel rest2 with
        | some (vs, rest3) => some (v :: vs, rest3)
        | none => none
      | ']' :: rest2 => some ([v], rest2)
      | _ => none

def readMembers : Nat → List Char → Option (List (String × JsonVal) × List Char)
  | 0, _ => none
  | Nat.succ fuel, cs =>
    match skipWs cs with
    | '"' :: rest =>
      match readStrChars rest with
      | none => none
      | some (key, rest2) =>
        match skipWs rest2 with
        | ':' :: rest3 =>
          match readVal fuel rest3 with
          | none => none
          | some (v, rest4) =>
            match skipWs rest4 with
            | ',' :: rest5 =>
              match readMembers fuel rest5 with
              | some (ms, rest6) => some ((String.mk key, v) :: ms, rest6)
              | none => none
            | '\x7d' :: rest5 => some ([(String.mk key, v)], rest5)
            | _ => none
        | _ => none
    | _ => none

end

def json_loads (s : String) : Option JsonVal :=
  match readVal (s.data.length + 1) s.data with
  | some (v, rest) => if skipWs rest = [] then some v else none
  | none => none

/-- Parameter payloads handed to `send_command`: a Python dict mapping
string keys to string values. -/
def Params : Type := List (String × String)

instance : DecidableEq Params := inferInstanceAs (DecidableEq (List (String × String)))

def py_truthy_params (p : Option Params) : Bool :=
  match p with
  | none => false
  | some l => !(List.isEmpty l)

/-- `json.dumps` on a string-valued dict, with the default separators. -/
def json_dumps (p : Params) : String :=
  "\x7b" ++ String.intercalate ", "
      ((p : List (String × String)).map fun kv => "\"" ++ kv.1 ++ "\": \"" ++ kv.2 ++ "\"")
    ++ "\x7d"

/-! ## Stored rows and the store

One structure per table of the schema; nullable columns are `Option`.
Timestamp columns keep their stored text encoding, boolean columns their
stored integer encoding, and structured payload columns their serialized
text. -/

structure SiteStatsRow where
  site_id : String
  last_run_at : Option String
  last_run_status : Option String
  total_properties : Option Int
  total_snapshots : Option Int
  properties_synced : Option Int
  success_rate : Option Rat
  avg_run_duration_sec : Option Int
deriving DecidableEq, Repr

structure ScrapeRunRow where
  id : Int
  site_id : String
  started_at : Option String
  finished_at : Option String
  status : Option String
  listings_found : Option Int
  listings_new : Option Int
  properties_new : Option Int
  properties_relisted : Option Int
  errors_count : Option Int
deriving DecidableEq, Repr

structure ScrapeLogRow where
  id : Int
  run_id : Option Int
  timestamp : Option String
  level : Option String
  message : Option String
  site_id : Option String
deriving DecidableEq, Repr

structure PropertyRow where
  id : String
  normalized_address : Option String
  city : Option String
  beds : Option Int
  baths : Option Int
  sqft : Option Int
  property_type : Option String
  first_seen_at : Option String
  last_seen_at : Option String
  times_listed : Option Int
  synced : Option Int
deriving DecidableEq, Repr

structure SnapshotRow where
  id : Int
  property_id : String
  listing_id : Option String
  site_id : Option String
  url : Option String
  price : Option Int
  data : Option String
  scraped_at : Option String
  run_id : Option Int
deriving DecidableEq, Repr

structure CommandRow where
  id : Int
  command : String
  params : Option String
  created_at : String
deriving DecidableEq, Repr

/-- The shared SQLite store.  `next_command_id` is the rowid high-water
mark of the append-only `commands` table (the core never deletes from
it). -/
structure DB where
  site_stats : List SiteStatsRow
  scrape_runs : List ScrapeRunRow
  scrape_logs : List ScrapeLogRow
  properties : List PropertyRow
  listing_snapshots : List SnapshotRow
  commands : List CommandRow
  next_command_id : Int
deriving Repr

def emptyDB : DB := ⟨[], [], [], [], [], [], 1⟩

/-! ## Typed records

One structure per dataclass of `db_client.py`, with `Option` where the
runtime value can be `None`. -/

structure SiteStats where
  site_id : String
  last_run_at : Option DateTime
  last_run_status : Option String
  total_properties : Int
  total_snapshots : Int
  properties_synced : Int
  success_rate : Rat
  avg_run_duration_sec : Int
deriving DecidableEq, Repr

structure ScrapeRun where
  id : Int
  site_id : String
  started_at : Option DateTime
  finished_at : Option DateTime
  status : Option String
  listings_found : Int
  listings_new : Int
  properties_new : Int
  properties_relisted : Int
  errors_count : Int
deriving DecidableEq, Repr

structure ScrapeLog where
  id : Int
  run_id : Option Int
  timestamp : Option DateTime
  level : Option String
  message : Option String
  site_id : Option String
deriving DecidableEq, Repr

structure Property where
  id : String
  normalized_address : Option String
  city : Option String
  beds : Int
  baths : Int
  sqft : Int
  property_type : Option String
  first_seen_at : Option DateTime
  last_seen_at : Option DateTime
  times_listed : Int
  synced : Bool
  latest_price : Int
deriving DecidableEq, Repr

structure Snapshot where
  id : Int
  property_id : String
  listing_id : Option String
  site_id : Option String
  url : Option String
  price : Int
  data : JsonVal
  scraped_at : Option DateTime
  run_id : Option Int

/-! ## Row mappers -/

def siteStatsOfRow (row : SiteStatsRow) : SiteStats :=
  { site_id := row.site_id
    last_run_at := parse_datetime row.last_run_at
    last_run_status := row.last_run_status
    total_properties := py_or_int row.total_properties 0
    total_snapshots := py_or_int row.total_snapshots 0
    properties_synced := py_or_int row.properties_synced 0
    success_rate := py_or_rat row.success_rate 0
    avg_run_duration_sec := py_or_int row.avg_run_duration_sec 0 }

def scrapeRunOfRow (row : ScrapeRunRow) : ScrapeRun :=
  { id := row.id
    site_id := row.site_id
    started_at := parse_datetime row.started_at
    finished_at := parse_datetime row.finished_at
    status := row.status
    listings_found := py_or_int row.listings_found 0
    listings_new := py_or_int row.listings_new 0
    properties_new := py_or_int row.properties_new 0
    properties_relisted := py_or_int row.properties_relisted 0
    errors_count := py_or_int row.errors_count 0 }

def scrapeLogOfRow (row : ScrapeLogRow) : ScrapeLog :=
  { id := row.id
    run_id := row.run_id
    timestamp := parse_datetime row.timestamp
    level := row.level
    message := row.message
    site_id := row.site_id }

/-- The correlated subquery
`SELECT ls.price FROM listing_snapshots ls WHERE ls.property_id = p.id
ORDER BY ls.scraped_at DESC LIMIT 1`: the snapshot row with the greatest
`scraped_at` among those owned by the property (the choice among ties is
not pinned down by the query; this model keeps the rightmost). -/
def latestSnapshotRow (snaps : List SnapshotRow) (pid : String) : Option SnapshotRow :=
  argmaxScraped (snaps.filter fun s => s.property_id == pid)
where
  argmaxScraped : List SnapshotRow → Option SnapshotRow
    | [] => none
    | x :: xs =>
      match argmaxScraped xs with
      | none => some x
      | some m => if sqlLtB m.scraped_at x.scraped_at then some x else some m

def propertyOfRow (snaps : List SnapshotRow) (row : PropertyRow) : Property :=
  { id := row.id
    normalized_address := row.normalized_address
    city := row.city
    beds := py_or_int row.beds 0
    baths := py_or_int row.baths 0
    sqft := py_or_int row.sqft 0
    property_type := row.property_type
    first_seen_at := parse_datetime row.first_seen_at
    last_seen_at := parse_datetime row.last_seen_at
    times_listed := py_or_int row.times_listed 1
    synced := py_bool row.synced
    latest_price := py_or_int ((latestSnapshotRow snaps row.id).bind fun s => s.price) 0 }

/-- Mapping one snapshot row: `json.loads(row["data"]) if row["data"] else {}`
raises `JSONDecodeError` (modelled as `Except.error`) on a truthy payload
that does not decode. -/
def snapshotOfRow (row : SnapshotRow) : Except String Snapshot :=
  match (if py_truthy_str row.data then
           match json_loads (row.data.getD "") with
           | some v => Except.ok v
           | none => Except.error "JSONDecodeError"
         else Except.ok (JsonVal.obj [])) with
  | Except.error e => Except.error e
  | Except.ok dataVal =>
    Except.ok
      { id := row.id
        property_id := row.property_id
        listing_id := row.listing_id
        site_id := row.site_id
        url := row.url
        price := py_or_int row.price 0
        data := dataVal
        scraped_at := parse_datetime row.scraped_at
        run_id := row.run_id }

/-! ## ORDER BY relations -/

/-- `ORDER BY key DESC` on a nullable text column: `a` may precede `b`
when `b`'s key is at most `a`'s in the SQLite order. -/
def descBy (key : α → Option String) (a b : α) : Prop := sqlLe (key b) (key a)

instance (key : α → Option String) : DecidableRel (descBy key) := fun a b =>
  inferInstanceAs (Decidable (sqlLe (key b) (key a)))

instance (key : α → Option String) : IsTotal α (descBy key) :=
  ⟨fun a b => sqlLeB_total (key b) (key a)⟩

instance (key : α → Option String) : IsTrans α (descBy key) :=
  ⟨fun _ _ _ h1 h2 => sqlLeB_trans h2 h1⟩

/-- `ORDER BY site_id` ascending on the non-null site id column. -/
def siteAsc (a b : SiteStatsRow) : Prop := a.site_id ≤ b.site_id

instance : DecidableRel siteAsc := fun a b =>
  inferInstanceAs (Decidable (a.site_id ≤ b.site_id))

instance : IsTotal SiteStatsRow siteAsc := ⟨fun a b => le_total a.site_id b.site_id⟩

instance : IsTrans SiteStatsRow siteAsc := ⟨fun _ _ _ h1 h2 => le_trans h1 h2⟩

/-! ## Read-model aggregator queries

Each query is split into its row pipeline (`WHERE` filter, `ORDER BY`
sort, `LIMIT` truncation) and the mapping into typed records, mirroring
the SQL text plus the list comprehension of the Python method. -/

def get_site_stats (db : DB) : List SiteStats :=
  (db.site_stats.insertionSort siteAsc).map siteStatsOfRow

def get_recent_runs_rows (db : DB) (limit : Nat) : List ScrapeRunRow :=
  (db.scrape_runs.insertionSort (descBy ScrapeRunRow.started_at)).take limit

def get_recent_runs (db : DB) (limit : Nat) : List ScrapeRun :=
  (get_recent_runs_rows db limit).map scrapeRunOfRow

/-- `get_recent_logs`: the Python guard `if level:` applies the
`WHERE level = ?` filter only for a truthy (non-`None`, non-empty) level
argument. -/
def get_recent_logs_rows (db : DB) (limit : Nat) (level : Option String) : List ScrapeLogRow :=
  let base :=
    if py_truthy_str level then db.scrape_logs.filter (fun r => r.level == level)
    else db.scrape_logs
  (base.insertionSort (descBy ScrapeLogRow.timestamp)).take limit

def get_recent_logs (db : DB) (limit : Nat) (level : Option String) : List ScrapeLog :=
  (get_recent_logs_rows db limit level).map scrapeLogOfRow

/-- `get_properties`: `WHERE p.synced = FALSE` under SQL three-valued
logic keeps exactly the rows whose stored `synced` is the integer `0` —
a NULL `synced` fails the comparison and is filtered out. -/
def get_properties_rows (db : DB) (limit : Nat) (unsynced_only : Bool) : List PropertyRow :=
  let base :=
    if unsynced_only then db.properties.filter (fun p => p.synced == some 0)
    else db.properties
  (base.insertionSort (descBy PropertyRow.last_seen_at)).take limit

def get_properties (db : DB) (limit : Nat) (unsynced_only : Bool) : List Property :=
  (get_properties_rows db limit unsynced_only).map (propertyOfRow db.listing_snapshots)

def get_property_count (db : DB) : Nat := db.properties.length

def get_snapshot_count (db : DB) : Nat := db.listing_snapshots.length

def get_snapshots_for_property_rows (db : DB) (pid : String) : List SnapshotRow :=
  (db.listing_snapshots.filter (fun s => s.property_id == pid)).insertionSort
    (descBy SnapshotRow.scraped_at)

def get_snapshots_for_property (db : DB) (pid : String) : Except String (List Snapshot) :=
  (get_snapshots_for_property_rows db pid).mapM snapshotOfRow

/-! ## Command queue -/

/-- The five recognized command names (spec §6 command vocabulary; the
five convenience wrappers below send exactly these). -/
def valid_commands : List String :=
  ["scrape_now", "scrape_site", "pause", "resume", "sync_now"]

/-- `json.dumps(params) if params else None`: the params column stays
NULL unless the payload is truthy (present and non-empty). -/
def paramsColumn (params : Option Params) : Option String :=
  if py_truthy_params params then some (json_dumps (params.getD [])) else none

/-- `send_command`: a single durable insert into `commands`, committed
before returning the newly assigned rowid.  No validation of the command
name happens anywhere on this path. -/
def send_command (db : DB) (command : String) (params : Option Params) (now : String) :
    Int × DB :=
  let id := db.next_command_id
  (id,
   { db with
     commands := db.commands ++ [⟨id, command, paramsColumn params, now⟩]
     next_command_id := id + 1 })

def scrape_now (db : DB) (now : String) : Int × DB :=
  send_command db "scrape_now" none now

def scrape_site (db : DB) (site_id : String) (now : String) : Int × DB :=
  send_command db "scrape_site" (some [("site", site_id)]) now

def pause (db : DB) (now : String) : Int × DB :=
  send_command db "pause" none now

def resume (db : DB) (now : String) : Int × DB :=
  send_command db "resume" none now

def sync_now (db : DB) (now : String) : Int × DB :=
  send_command db "sync_now" none now

/-! ## Connection lifecycle

`connProp` models the `conn` property: a missing handle is replaced by a
fresh connection before any use.  `runRead` models issuing one operation
through `self.conn.execute(...)`: using a still-missing handle would be
the closed-handle failure, surfaced here as `Except.error`. -/

structure DatabaseClient where
  db_path : String
  handle : Option Unit
deriving DecidableEq, Repr

def connect (c : DatabaseClient) : DatabaseClient := { c with handle := some () }

def close (c : DatabaseClient) : DatabaseClient :=
  if c.handle.isSome then { c with handle := none } else c

def connProp (c : DatabaseClient) : DatabaseClient × Option Unit :=
  let c' := if c.handle.isNone then connect c else c
  (c', c'.handle)

def runRead (c : DatabaseClient) (db : DB) (q : DB → α) :
    DatabaseClient × Except String α :=
  match connProp c with
  | (c', some _) => (c', Except.ok (q db))
  | (c', none) => (c', Except.error "closed handle")

def client_get_site_stats (c : DatabaseClient) (db : DB) :
    DatabaseClient × Except String (List SiteStats) :=
  runRead c db get_site_stats

def client_get_recent_logs (c : DatabaseClient) (db : DB) (limit : Nat)
    (level : Option String) : DatabaseClient × Except String (List ScrapeLog) :=
  runRead c db fun d => get_recent_logs d limit level

def client_get_properties (c : DatabaseClient) (db : DB) (limit : Nat)
    (unsynced_only : Bool) : DatabaseClient × Except String (List Property) :=
  runRead c db fun d => get_properties d limit unsynced_only

def client_get_snapshots_for_property (c : DatabaseClient) (db : DB) (pid : String) :
    DatabaseClient × Except String (Except String (List Snapshot)) :=
  runRead c db fun d => get_snapshots_for_property d pid

def client_send_command (c : DatabaseClient) (db : DB) (command : String)
    (params : Option Params) (now : String) :
    DatabaseClient × Except String (Int × DB) :=
  runRead c db fun d => send_command d command params now

/-! ## Generic lemmas about the query pipelines -/

theorem sorted_take {r : α → α → Prop} {l : List α} (h : List.Sorted r l) (n : Nat) :
    List.Sorted r (l.take n) :=
  List.Pairwise.sublist (List.take_sublist n l) h

theorem mem_of_mem_sortTake {r : α → α → Prop} [DecidableRel r] {l : List α} {n : Nat}
    {x : α} (hx : x ∈ (l.insertionSort r).take n) : x ∈ l :=
  (List.mem_insertionSort r).mp (List.take_subset n _ hx)

theorem length_sortTake {r : α → α → Prop} [DecidableRel r] (l : List α) (n : Nat) :
    ((l.insertionSort r).take n).length ≤ n := by
  rw [List.length_take]
  exact Nat.min_le_left _ _

/-- A table row missing from the `LIMIT n` prefix of the sorted table is
only missing because the prefix is full, and every returned row sorts no
later than it. -/
theorem sortTake_full_of_notMem {r : α → α → Prop} [DecidableRel r]
    [IsTotal α r] [IsTrans α r] {l : List α} {n : Nat} {x : α}
    (hx : x ∈ l) (hnot : x ∉ (l.insertionSort r).take n) :
    ((l.insertionSort r).take n).length = n ∧
      ∀ y ∈ (l.insertionSort r).take n, r y x := by
  have hmem : x ∈ l.insertionSort r := (List.mem_insertionSort r).mpr hx
  have hsplit : (l.insertionSort r).take n ++ (l.insertionSort r).drop n =
      l.insertionSort r := List.take_append_drop n _
  have hdrop : x ∈ (l.insertionSort r).drop n := by
    rcases (List.mem_append.mp (hsplit ▸ hmem)) with h | h
    · exact absurd h hnot
    · exact h
  have hlen : n ≤ (l.insertionSort r).length := by
    by_contra hcon
    push_neg at hcon
    rw [List.drop_eq_nil_of_le (Nat.le_of_lt hcon)] at hdrop
    exact absurd hdrop (List.not_mem_nil x)
  constructor
  · simpa using Nat.min_eq_left hlen
  · intro y hy
    have hsorted : List.Sorted r (l.insertionSort r) := List.sorted_insertionSort r l
    have hpair := hsorted
    rw [← hsplit] at hpair
    exact ((List.pairwise_append.mp hpair).2.2) y hy x hdrop

theorem argmaxScraped_mem {l : List SnapshotRow} {m : SnapshotRow}
    (h : latestSnapshotRow.argmaxScraped l = some m) : m ∈ l := by
  induction l generalizing m with
  | nil => simp [latestSnapshotRow.argmaxScraped] at h
  | cons x xs ih =>
    rw [latestSnapshotRow.argmaxScraped] at h
    cases hxs : latestSnapshotRow.argmaxScraped xs with
    | none =>
      rw [hxs] at h
      have hxm : some x = some m := h
      exact (Option.some_inj.mp hxm) ▸ List.mem_cons_self x xs
    | some m' =>
      rw [hxs] at h
      have h' : (if sqlLtB m'.scraped_at x.scraped_at = true then some x else some m')
          = some m := h
      by_cases hc : sqlLtB m'.scraped_at x.scraped_at = true
      · rw [if_pos hc] at h'
        exact (Option.some_inj.mp h') ▸ List.mem_cons_self x xs
      · rw [if_neg hc] at h'
        exact List.mem_cons_of_mem x ((Option.some_inj.mp h') ▸ ih hxs)

/-- If `s` belongs to the list and strictly dominates every other element
on `scraped_at`, the latest-snapshot fold returns exactly `s`. -/
theorem argmaxScraped_eq_of_strictMax {l : List SnapshotRow} {s : SnapshotRow}
    (hs : s ∈ l)
    (hmax : ∀ t ∈ l, t ≠ s → sqlLtB t.scraped_at s.scraped_at = true) :
    latestSnapshotRow.argmaxScraped l = some s := by
  induction l with
  | nil => exact absurd hs (List.not_mem_nil s)
  | cons x xs ih =>
    rw [latestSnapshotRow.argmaxScraped]
    rcases List.mem_cons.mp hs with hxe | hxs
    · subst hxe
      cases hxs : latestSnapshotRow.argmaxScraped xs with
      | none => rfl
      | some m =>
        show (if sqlLtB m.scraped_at s.scraped_at = true then some s else some m) = some s
        have hm : m ∈ xs := argmaxScraped_mem hxs
        by_cases hme : m = s
        · subst hme
          rw [if_neg (by simp [sqlLtB_irrefl])]
        · have hlt := hmax m (List.mem_cons_of_mem s hm) hme
          rw [if_pos hlt]
    · have hxsarg : latestSnapshotRow.argmaxScraped xs = some s :=
        ih hxs (fun t ht hne => hmax t (List.mem_cons_of_mem x ht) hne)
      rw [hxsarg]
      show (if sqlLtB s.scraped_at x.scraped_at = true then some x else some s) = some s
      by_cases hxe : x = s
      · subst hxe
        rw [if_neg (by simp [sqlLtB_irrefl])]
      · have hlt := hmax x (List.mem_cons_self x xs) hxe
        rw [if_neg (by simp [sqlLtB_asymm hlt])]

theorem mapM_error_of_mem {l : List SnapshotRow} {x : SnapshotRow} {e : String}
    (hx : x ∈ l) (he : snapshotOfRow x = Except.error e) :
    ∃ e', l.mapM snapshotOfRow = Except.error e' := by
  induction l with
  | nil => exact absurd hx (List.not_mem_nil x)
  | cons y ys ih =>
    rw [List.mapM_cons]
    cases hy : snapshotOfRow y with
    | error e'' => exact ⟨e'', rfl⟩
    | ok v =>
      rcases List.mem_cons.mp hx with hxe | hxs
      · subst hxe
        rw [he] at hy
        cases hy
      · rcases ih hxs with ⟨e', hmap⟩
        exact ⟨e', by rw [hmap]; rfl⟩

theorem replaceZChars_append_Z {l : List Char} (h : 'Z' ∉ l) :
    replaceZChars (l ++ ['Z']) =
      l ++ ('+' :: '0' :: '0' :: ':' :: '0' :: '0' :: []) := by
  induction l with
  | nil => rfl
  | cons c cs ih =>
    have hc : ¬(c = 'Z') := fun hce => h (hce ▸ List.mem_cons_self c cs)
    have hcs : 'Z' ∉ cs := fun hm => h (List.mem_cons_of_mem c hm)
    simp [replaceZChars, hc, ih hcs]

theorem data_append_Z (s : String) : (s ++ "Z").data = s.data ++ ['Z'] :=
  String.data_append s "Z"

theorem append_Z_ne_empty (s : String) : s ++ "Z" ≠ "" := by
  intro h
  have hd : (s ++ "Z").data = ([] : List Char) := by rw [h]
  rw [data_append_Z] at hd
  exact absurd hd (by simp)

theorem replaceZ_append_Z {s : String} (h : 'Z' ∉ s.data) :
    replaceZ (s ++ "Z") = s ++ "+00:00" := by
  apply String.ext
  show (replaceZ (s ++ "Z")).data = (s ++ "+00:00").data
  rw [replaceZ]
  show replaceZChars (s ++ "Z").data = (s ++ "+00:00").data
  rw [data_append_Z, replaceZChars_append_Z h, String.data_append]

theorem paramsColumn_eq_map {params : Option Params}
    (hp : params = none ∨ ∃ l, params = some l ∧ l ≠ []) :
    paramsColumn params = params.map json_dumps := by
  rcases hp with h | ⟨l, hl, hne⟩
  · subst h; rfl
  · subst hl
    cases l with
    | nil => exact absurd rfl hne
    | cons kv rest => rfl

theorem connProp_eq (c : DatabaseClient) :
    connProp c = (⟨c.db_path, some ()⟩, some ()) := by
  rcases c with ⟨path, handle⟩
  cases handle with
  | none => rfl
  | some u => cases u; rfl

theorem runRead_ok (c : DatabaseClient) (db : DB) (q : DB → α) :
    runRead c db q = (⟨c.db_path, some ()⟩, Except.ok (q db)) := by
  unfold runRead
  rw [connProp_eq c]

/-! ## Concrete fixtures used by witnesses and counterexamples -/

def t0 : String := "2024-01-01T00:00:00"

def snap4a : SnapshotRow :=
  ⟨1, "p1", some "l1", some "zillow", some "u1", some 300000, none,
   some "2024-01-01T10:00:00Z", some 1⟩

def snap4b : SnapshotRow :=
  ⟨2, "p1", some "l2", some "zillow", some "u2", some 310000, none,
   some "2024-01-02T10:00:00Z", some 2⟩

def prop4 : PropertyRow :=
  ⟨"p1", some "123 main st", some "austin", some 3, some 2, some 1500, some "house",
   some "2024-01-01T10:00:00Z", some "2024-01-02T10:00:00Z", some 2, some 0⟩

def exDB4 : DB :=
  { emptyDB with properties := [prop4], listing_snapshots := [snap4a, snap4b] }

def snap2bad : SnapshotRow :=
  ⟨1, "p1", none, none, none, some 100, some "not json", some "2024-01-01T00:00:00Z", none⟩

def snap2none : SnapshotRow :=
  ⟨3, "p1", none, none, none, none, none, none, none⟩

def exDB2 : DB := { emptyDB with listing_snapshots := [snap2bad] }

def prop3 : PropertyRow :=
  ⟨"p3", none, none, none, none, none, none, none, none, none, none⟩

def srow3 : SiteStatsRow := ⟨"zillow", none, none, none, none, none, none, none⟩

def rrow3 : ScrapeRunRow := ⟨1, "zillow", none, none, none, none, none, none, none, none⟩

def lrow3 : ScrapeLogRow := ⟨1, none, none, some "INFO", some "m", none⟩

def snap3val : Snapshot :=
  ⟨3, "p1", none, none, none, 0, JsonVal.obj [], none, none⟩

def log6 : ScrapeLogRow :=
  ⟨1, none, some "2024-01-01T00:00:00Z", some "INFO", some "hello", none⟩

def log6err : ScrapeLogRow :=
  ⟨2, none, some "2024-01-02T00:00:00Z", some "ERROR", some "boom", none⟩

def exDB6 : DB := { emptyDB with scrape_logs := [log6] }

def exDB6w : DB := { emptyDB with scrape_logs := [log6, log6err] }

def prop7 : PropertyRow :=
  ⟨"p7", none, none, none, none, none, none, none, some "2024-01-01T00:00:00Z", some 1, none⟩

def prop7synced : PropertyRow :=
  ⟨"p8", none, none, none, none, none, none, none, some "2024-01-02T00:00:00Z", some 1, some 1⟩

def prop7unsynced : PropertyRow :=
  ⟨"p9", none, none, none, none, none, none, none, some "2024-01-03T00:00:00Z", some 1, some 0⟩

def exDB7 : DB := { emptyDB with properties := [prop7] }

def exDB7w : DB := { emptyDB with properties := [prop7synced, prop7unsynced] }

/-! ## Claims -/

/-- C1, counterexample: the claim "an unrecognized command name is
rejected before any store write, and no row is inserted" is false —
`send_command` applied to the unrecognized name `"bogus"` inserts a row
recording it. -/
theorem c1_counterexample :
    "bogus" ∉ valid_commands ∧
    ((send_command emptyDB "bogus" none t0).2.commands).length = 1 :=
  ⟨by decide, rfl⟩

/-- C1 (amended): `send_command` performs no validation of the command
name — a call with a command name outside the five recognized commands is
not rejected and appends exactly one row storing that name. -/
theorem c1_no_validation (db : DB) (name : String) (params : Option Params)
    (now : String) (h : name ∉ valid_commands) :
    (send_command db name params now).2.commands =
      db.commands ++ [⟨db.next_command_id, name, paramsColumn params, now⟩] :=
  rfl

theorem c1_witness :
    "bogus" ∉ valid_commands ∧
    (send_command emptyDB "bogus" none t0).2.commands =
      emptyDB.commands ++ [⟨emptyDB.next_command_id, "bogus", paramsColumn none, t0⟩] :=
  ⟨by decide, c1_no_validation emptyDB "bogus" none t0 (by decide)⟩

/-- C5, counterexample: the claim fails for the empty params payload —
enqueueing with params `{}` stores a NULL params column, not a value
matching the serialization of the given payload. -/
theorem c5_counterexample :
    ((send_command emptyDB "pause" (some ([] : Params)) t0).2.commands).map
        CommandRow.params = [none] ∧
    json_dumps ([] : Params) = "\x7b\x7d" ∧
    (none : Option String) ≠ some (json_dumps ([] : Params)) :=
  ⟨rfl, rfl, by decide⟩

/-- C5 (amended): for every valid command name and every params payload
that is absent or non-empty, a successful enqueue appends exactly one row
whose command is the given name and whose params column is exactly the
serialization of the given payload (NULL for an absent payload), and the
identifiers returned by successive enqueues on the same store strictly
increase. -/
theorem c5_enqueue (db : DB) (name : String) (params : Option Params) (now : String)
    (hname : name ∈ valid_commands)
    (hp : params = none ∨ ∃ l, params = some l ∧ l ≠ []) :
    ((send_command db name params now).2.commands =
      db.commands ++ [⟨db.next_command_id, name, params.map json_dumps, now⟩]) ∧
    ((send_command db name params now).1 = db.next_command_id) ∧
    (∀ name2 params2 now2,
      (send_command db name params now).1 <
        (send_command (send_command db name params now).2 name2 params2 now2).1) := by
  refine ⟨?_, rfl, ?_⟩
  · show db.commands ++ [⟨db.next_command_id, name, paramsColumn params, now⟩] =
      db.commands ++ [⟨db.next_command_id, name, params.map json_dumps, now⟩]
    rw [paramsColumn_eq_map hp]
  · intro name2 params2 now2
    show db.next_command_id < db.next_command_id + 1
    omega

theorem c5_witness :
    "scrape_site" ∈ valid_commands ∧
    ((send_command emptyDB "scrape_site" (some [("site", "zillow")]) t0).2.commands =
      emptyDB.commands ++
        [⟨emptyDB.next_command_id, "scrape_site", some "\x7b\"site\": \"zillow\"\x7d", t0⟩]) ∧
    json_loads "\x7b\"site\": \"zillow\"\x7d" =
      some (JsonVal.obj [("site", JsonVal.str "zillow")]) := by
  refine ⟨by decide, ?_, rfl⟩
  have h := (c5_enqueue emptyDB "scrape_site" (some [("site", "zillow")]) t0
    (by decide) (Or.inr ⟨[("site", "zillow")], rfl, by decide⟩)).1
  rw [h]
  rfl

/-- C8: timestamp parsing — a stored value whose text (after the `"Z"` to
`"+00:00"` rewrite) fails to parse is surfaced exactly like a stored NULL,
without raising, and a text with a trailing `"Z"` zone marker parses
identically to the same text with the explicit UTC-offset-zero designator
`"+00:00"`. -/
theorem c8_timestamp_parsing :
    (parse_datetime none = none) ∧
    (∀ s : String, fromisoformat (replaceZ s) = none →
      parse_datetime (some s) = parse_datetime none) ∧
    (∀ s : String, 'Z' ∉ s.data →
      parse_datetime (some (s ++ "Z")) = fromisoformat (s ++ "+00:00")) := by
  refine ⟨rfl, ?_, ?_⟩
  · intro s h
    show (if s = "" then none else fromisoformat (replaceZ s)) = none
    by_cases hs : s = ""
    · rw [if_pos hs]
    · rw [if_neg hs, h]
  · intro s h
    show (if s ++ "Z" = "" then none else fromisoformat (replaceZ (s ++ "Z"))) =
      fromisoformat (s ++ "+00:00")
    rw [if_neg (append_Z_ne_empty s), replaceZ_append_Z h]

theorem c8_witness :
    (fromisoformat (replaceZ "garbage") = none) ∧
    (parse_datetime (some "garbage") = parse_datetime none) ∧
    ('Z' ∉ ("2024-01-02T03:04:05" : String).data) ∧
    (parse_datetime (some ("2024-01-02T03:04:05" ++ "Z")) =
      fromisoformat ("2024-01-02T03:04:05" ++ "+00:00")) ∧
    (fromisoformat ("2024-01-02T03:04:05" ++ "+00:00") =
      some ⟨2024, 1, 2, 3, 4, 5, some 0⟩) :=
  ⟨by decide, c8_timestamp_parsing.2.1 "garbage" (by decide), by decide,
   c8_timestamp_parsing.2.2 "2024-01-02T03:04:05" (by decide), by decide⟩

/-- C9: every read and the enqueue write issued against a client whose
handle is closed (or never opened) implicitly reconnects and proceeds; the
closed-handle error branch of the operation runner is unreachable for
every client state. -/
theorem c9_implicit_reconnect (c : DatabaseClient) (db : DB) (limit : Nat)
    (level : Option String) (flag : Bool) (pid name now : String)
    (params : Option Params) :
    ((connProp c).1.handle = some ()) ∧
    (∀ (α : Type) (q : DB → α), (runRead c db q).2 = Except.ok (q db)) ∧
    ((client_get_site_stats c db).2 = Except.ok (get_site_stats db)) ∧
    ((client_get_recent_logs c db limit level).2 =
      Except.ok (get_recent_logs db limit level)) ∧
    ((client_get_properties c db limit flag).2 =
      Except.ok (get_properties db limit flag)) ∧
    ((client_get_snapshots_for_property c db pid).2 =
      Except.ok (get_snapshots_for_property db pid)) ∧
    ((client_send_command c db name params now).2 =
      Except.ok (send_command db name params now)) := by
  refine ⟨?_, fun α q => ?_, ?_, ?_, ?_, ?_, ?_⟩
  · rw [connProp_eq c]
  · rw [runRead_ok]
  · show (runRead c db get_site_stats).2 = _
    rw [runRead_ok]
  · show (runRead c db fun d => get_recent_logs d limit level).2 = _
    rw [runRead_ok]
  · show (runRead c db fun d => get_properties d limit flag).2 = _
    rw [runRead_ok]
  · show (runRead c db fun d => get_snapshots_for_property d pid).2 = _
    rw [runRead_ok]
  · show (runRead c db fun d => send_command d name params now).2 = _
    rw [runRead_ok]

/-- C10: enqueueing with an empty params dictionary is indistinguishable
from enqueueing with no params at all — both store a NULL params column
and produce identical results. -/
theorem c10_empty_params (db : DB) (name : String) (now : String) :
    send_command db name (some ([] : Params)) now = send_command db name none now :=
  rfl

theorem snapshotOfRow_ok_fields {row : SnapshotRow} {snap : Snapshot}
    (h : snapshotOfRow row = Except.ok snap) :
    snap.price = py_or_int row.price 0 ∧ snap.run_id = row.run_id := by
  unfold snapshotOfRow at h
  split at h
  · exact Except.noConfusion h
  · cases h
    exact ⟨rfl, rfl⟩

/-- C2, counterexample: the claim "decoding never raises an error to the
caller" is false — a snapshot row carrying the undecodable payload
`"not json"` makes the snapshots query surface a decode error. -/
theorem c2_counterexample :
    snap2bad.data = some "not json" ∧
    json_loads "not json" = none ∧
    get_snapshots_for_property exDB2 "p1" = Except.error "JSONDecodeError" :=
  ⟨rfl, rfl, rfl⟩

/-- C2 (amended): a structured payload column that is absent or empty is
surfaced as the empty structure, but a non-empty payload that fails to
decode raises a decode error which propagates out of the
snapshots-for-property query. -/
theorem c2_snapshot_payload :
    (∀ row : SnapshotRow, row.data = none ∨ row.data = some "" →
      ∃ snap, snapshotOfRow row = Except.ok snap ∧ snap.data = JsonVal.obj []) ∧
    (∀ row : SnapshotRow, ∀ s, row.data = some s → s ≠ "" → json_loads s = none →
      snapshotOfRow row = Except.error "JSONDecodeError") ∧
    (∀ db : DB, ∀ pid : String, ∀ row ∈ db.listing_snapshots, row.property_id = pid →
      ∀ s, row.data = some s → s ≠ "" → json_loads s = none →
      ∃ e, get_snapshots_for_property db pid = Except.error e) := by
  have hempty : ∀ row : SnapshotRow, row.data = none ∨ row.data = some "" →
      ∃ snap, snapshotOfRow row = Except.ok snap ∧ snap.data = JsonVal.obj [] := by
    intro row h
    rcases row with ⟨i, pid', lid, sid, url, price, data, sc, rid⟩
    rcases h with h | h
    · cases h
      exact ⟨_, rfl, rfl⟩
    · cases h
      exact ⟨_, rfl, rfl⟩
  have hbad : ∀ row : SnapshotRow, ∀ s, row.data = some s → s ≠ "" →
      json_loads s = none → snapshotOfRow row = Except.error "JSONDecodeError" := by
    intro row s hdata hne hload
    rcases row with ⟨i, pid', lid, sid, url, price, data, sc, rid⟩
    cases hdata
    unfold snapshotOfRow
    have htruthy : py_truthy_str (some s) = true := by
      simp [py_truthy_str, hne]
    rw [htruthy]
    show (match (match json_loads s with
                 | some v => Except.ok v
                 | none => Except.error "JSONDecodeError" : Except String JsonVal) with
          | Except.error e => (Except.error e : Except String Snapshot)
          | Except.ok dataVal => Except.ok _) = Except.error "JSONDecodeError"
    rw [hload]
  refine ⟨hempty, hbad, ?_⟩
  intro db pid row hmem hpid s hdata hne hload
  have hrowmem : row ∈ get_snapshots_for_property_rows db pid := by
    unfold get_snapshots_for_property_rows
    rw [List.mem_insertionSort]
    exact List.mem_filter.mpr ⟨hmem, by simp [hpid]⟩
  exact mapM_error_of_mem hrowmem (hbad row s hdata hne hload)

theorem c2_witness :
    (∃ snap, snapshotOfRow snap2none = Except.ok snap ∧ snap.data = JsonVal.obj []) ∧
    (snapshotOfRow snap2bad = Except.error "JSONDecodeError") ∧
    (∃ e, get_snapshots_for_property exDB2 "p1" = Except.error e) :=
  ⟨c2_snapshot_payload.1 snap2none (Or.inl rfl),
   c2_snapshot_payload.2.1 snap2bad "not json" rfl (by decide) rfl,
   c2_snapshot_payload.2.2 exDB2 "p1" snap2bad (by decide) rfl "not json" rfl
     (by decide) rfl⟩

/-- C3, counterexample: the claim "every numeric column that is NULL is
surfaced as zero" is false — a NULL `times_listed` column is surfaced as
one. -/
theorem c3_counterexample :
    prop3.times_listed = none ∧
    (propertyOfRow [] prop3).times_listed = 1 ∧
    (1 : Int) ≠ 0 :=
  ⟨rfl, rfl, by decide⟩

/-- C3 (amended): in every projection query's row mapping, a NULL numeric
data column is surfaced as zero and a NULL boolean column as false, with
these exceptions: `times_listed` coalesces to one, and the optional
`run_id` identifier columns of log and snapshot rows are surfaced as
absent rather than zero. -/
theorem c3_null_coalescing (srow : SiteStatsRow) (rrow : ScrapeRunRow)
    (lrow : ScrapeLogRow) (prow : PropertyRow) (nrow : SnapshotRow)
    (snaps : List SnapshotRow) (snap : Snapshot) :
    (srow.total_properties = none → (siteStatsOfRow srow).total_properties = 0) ∧
    (srow.total_snapshots = none → (siteStatsOfRow srow).total_snapshots = 0) ∧
    (srow.properties_synced = none → (siteStatsOfRow srow).properties_synced = 0) ∧
    (srow.success_rate = none → (siteStatsOfRow srow).success_rate = 0) ∧
    (srow.avg_run_duration_sec = none → (siteStatsOfRow srow).avg_run_duration_sec = 0) ∧
    (rrow.listings_found = none → (scrapeRunOfRow rrow).listings_found = 0) ∧
    (rrow.listings_new = none → (scrapeRunOfRow rrow).listings_new = 0) ∧
    (rrow.properties_new = none → (scrapeRunOfRow rrow).properties_new = 0) ∧
    (rrow.properties_relisted = none → (scrapeRunOfRow rrow).properties_relisted = 0) ∧
    (rrow.errors_count = none → (scrapeRunOfRow rrow).errors_count = 0) ∧
    (prow.beds = none → (propertyOfRow snaps prow).beds = 0) ∧
    (prow.baths = none → (propertyOfRow snaps prow).baths = 0) ∧
    (prow.sqft = none → (propertyOfRow snaps prow).sqft = 0) ∧
    (prow.synced = none → (propertyOfRow snaps prow).synced = false) ∧
    ((latestSnapshotRow snaps prow.id).bind SnapshotRow.price = none →
      (propertyOfRow snaps prow).latest_price = 0) ∧
    (prow.times_listed = none → (propertyOfRow snaps prow).times_listed = 1) ∧
    (nrow.price = none → snapshotOfRow nrow = Except.ok snap → snap.price = 0) ∧
    (lrow.run_id = none → (scrapeLogOfRow lrow).run_id = none) ∧
    (nrow.run_id = none → snapshotOfRow nrow = Except.ok snap → snap.run_id = none) := by
  refine ⟨?_, ?_, ?_, ?_, ?_, ?_, ?_, ?_, ?_, ?_, ?_, ?_, ?_, ?_, ?_, ?_, ?_, ?_, ?_⟩
  · intro h; simp [siteStatsOfRow, py_or_int, h]
  · intro h; simp [siteStatsOfRow, py_or_int, h]
  · intro h; simp [siteStatsOfRow, py_or_int, h]
  · intro h; simp [siteStatsOfRow, py_or_rat, h]
  · intro h; simp [siteStatsOfRow, py_or_int, h]
  · intro h; simp [scrapeRunOfRow, py_or_int, h]
  · intro h; simp [scrapeRunOfRow, py_or_int, h]
  · intro h; simp [scrapeRunOfRow, py_or_int, h]
  · intro h; simp [scrapeRunOfRow, py_or_int, h]
  · intro h; simp [scrapeRunOfRow, py_or_int, h]
  · intro h; simp [propertyOfRow, py_or_int, h]
  · intro h; simp [propertyOfRow, py_or_int, h]
  · intro h; simp [propertyOfRow, py_or_int, h]
  · intro h; simp [propertyOfRow, py_bool, h]
  · intro h; simp [propertyOfRow, py_or_int, h]
  · intro h; simp [propertyOfRow, py_or_int, h]
  · intro h hok
    rw [(snapshotOfRow_ok_fields hok).1, h]
    rfl
  · intro h; simp [scrapeLogOfRow, h]
  · intro h hok
    rw [(snapshotOfRow_ok_fields hok).2, h]

theorem c3_witness :
    ((siteStatsOfRow srow3).total_properties = 0) ∧
    ((siteStatsOfRow srow3).success_rate = 0) ∧
    ((scrapeRunOfRow rrow3).errors_count = 0) ∧
    ((propertyOfRow [] prop3).beds = 0) ∧
    ((propertyOfRow [] prop3).synced = false) ∧
    ((propertyOfRow [] prop3).times_listed = 1) ∧
    (snap3val.price = 0) ∧
    ((scrapeLogOfRow lrow3).run_id = none) ∧
    (snap3val.run_id = none) := by
  obtain ⟨h1, h2, h3, h4, h5, h6, h7, h8, h9, h10, h11, h12, h13, h14, h15, h16,
    h17, h18, h19⟩ := c3_null_coalescing srow3 rrow3 lrow3 prop3 snap2none [] snap3val
  exact ⟨h1 rfl, h4 rfl, h10 rfl, h11 rfl, h14 rfl, h16 rfl, h17 rfl rfl, h18 rfl,
    h19 rfl rfl⟩

/-- C4: for a property returned by the properties query, if one of its
snapshots strictly dominates all its other snapshots on scraped time
(in particular whenever the scraped times are pairwise distinct and it is
the latest), the derived `latest_price` equals that snapshot's price. -/
theorem c4_latest_price (db : DB) (limit : Nat) (flag : Bool) (p : Property)
    (s : SnapshotRow) (v : Int)
    (hp : p ∈ get_properties db limit flag)
    (hs : s ∈ db.listing_snapshots)
    (hsp : s.property_id = p.id)
    (hmax : ∀ t ∈ db.listing_snapshots, t.property_id = p.id → t ≠ s →
      sqlLt t.scraped_at s.scraped_at)
    (hv : s.price = some v) :
    p.latest_price = v := by
  rcases List.mem_map.mp hp with ⟨row, hrowmem, hrow⟩
  subst hrow
  have hid : s.property_id = row.id := hsp
  have hfmem : s ∈ db.listing_snapshots.filter (fun t => t.property_id == row.id) :=
    List.mem_filter.mpr ⟨hs, by rw [hid]; simp⟩
  have hfmax : ∀ t ∈ db.listing_snapshots.filter (fun t => t.property_id == row.id),
      t ≠ s → sqlLtB t.scraped_at s.scraped_at = true := by
    intro t ht hne
    have h1 := (List.mem_filter.mp ht).1
    have h2 : t.property_id = row.id := by
      have := (List.mem_filter.mp ht).2
      simpa using this
    exact hmax t h1 h2 hne
  have harg : latestSnapshotRow db.listing_snapshots row.id = some s := by
    unfold latestSnapshotRow
    exact argmaxScraped_eq_of_strictMax hfmem hfmax
  show py_or_int ((latestSnapshotRow db.listing_snapshots row.id).bind
    SnapshotRow.price) 0 = v
  rw [harg]
  show py_or_int s.price 0 = v
  rw [hv]
  by_cases hz : v = 0
  · simp [py_or_int, hz]
  · simp [py_or_int, hz]

theorem c4_witness :
    (propertyOfRow exDB4.listing_snapshots prop4 ∈ get_properties exDB4 100 false) ∧
    (snap4a.price = some 300000 ∧ snap4b.price = some 310000) ∧
    ((propertyOfRow exDB4.listing_snapshots prop4).latest_price = 310000) :=
  ⟨by decide, ⟨rfl, rfl⟩,
   c4_latest_price exDB4 100 false (propertyOfRow exDB4.listing_snapshots prop4)
     snap4b 310000 (by decide) (by decide) rfl (by decide) rfl⟩

/-- C6, counterexample: the claim quantifies over every given level, but
the query treats the given level `""` as no filter at all — it returns
rows whose level is not `""`. -/
theorem c6_counterexample :
    (log6 ∈ get_recent_logs_rows exDB6 5 (some "")) ∧
    log6.level = some "INFO" ∧
    some "INFO" ≠ some "" ∧
    py_truthy_str (some "") = false :=
  ⟨by decide, rfl, by decide, rfl⟩

/-- C6 (amended): for every limit and every given non-empty level `L`,
the recent-logs query returns only rows whose level is exactly `L`
(no severity-threshold inclusion), ordered by timestamp descending and
bounded by the limit, omitting a matching row only when the result is
full of rows with timestamps at least as large; with no level given the
same holds for all rows of all levels. -/
theorem c6_recent_logs (db : DB) (limit : Nat) (L : String) (hL : L ≠ "") :
    (∀ r ∈ get_recent_logs_rows db limit (some L), r.level = some L) ∧
    List.Sorted (descBy ScrapeLogRow.timestamp) (get_recent_logs_rows db limit (some L)) ∧
    ((get_recent_logs_rows db limit (some L)).length ≤ limit) ∧
    (∀ r ∈ db.scrape_logs, r.level = some L →
      r ∉ get_recent_logs_rows db limit (some L) →
      (get_recent_logs_rows db limit (some L)).length = limit ∧
        ∀ y ∈ get_recent_logs_rows db limit (some L), sqlLe r.timestamp y.timestamp) ∧
    List.Sorted (descBy ScrapeLogRow.timestamp) (get_recent_logs_rows db limit none) ∧
    ((get_recent_logs_rows db limit none).length ≤ limit) ∧
    (∀ r ∈ db.scrape_logs, r ∉ get_recent_logs_rows db limit none →
      (get_recent_logs_rows db limit none).length = limit ∧
        ∀ y ∈ get_recent_logs_rows db limit none, sqlLe r.timestamp y.timestamp) := by
  have hrw : get_recent_logs_rows db limit (some L) =
      ((db.scrape_logs.filter (fun r => r.level == some L)).insertionSort
        (descBy ScrapeLogRow.timestamp)).take limit := by
    unfold get_recent_logs_rows
    simp [py_truthy_str, hL]
  have hrwn : get_recent_logs_rows db limit none =
      (db.scrape_logs.insertionSort (descBy ScrapeLogRow.timestamp)).take limit := by
    unfold get_recent_logs_rows
    simp [py_truthy_str]
  refine ⟨?_, ?_, ?_, ?_, ?_, ?_, ?_⟩
  · intro r hr
    rw [hrw] at hr
    have hrf := mem_of_mem_sortTake hr
    have := (List.mem_filter.mp hrf).2
    simpa using this
  · rw [hrw]
    exact sorted_take (List.sorted_insertionSort _ _) limit
  · rw [hrw]
    exact length_sortTake _ _
  · intro r hr hlev hnot
    rw [hrw] at hnot ⊢
    exact sortTake_full_of_notMem
      (List.mem_filter.mpr ⟨hr, by simp [hlev]⟩) hnot
  · rw [hrwn]
    exact sorted_take (List.sorted_insertionSort _ _) limit
  · rw [hrwn]
    exact length_sortTake _ _
  · intro r hr hnot
    rw [hrwn] at hnot ⊢
    exact sortTake_full_of_notMem hr hnot

theorem c6_witness :
    (log6err ∈ get_recent_logs_rows exDB6w 10 (some "ERROR")) ∧
    (∀ r ∈ get_recent_logs_rows exDB6w 10 (some "ERROR"), r.level = some "ERROR") ∧
    ((get_recent_logs_rows exDB6w 10 (some "ERROR")).length ≤ 10) :=
  ⟨by decide, (c6_recent_logs exDB6w 10 "ERROR" (by decide)).1,
   (c6_recent_logs exDB6w 10 "ERROR" (by decide)).2.2.1⟩

/-- C7, counterexample: the claim "includes all properties whose synced
flag is not true" is false — a property whose stored synced column is
NULL has a false surfaced flag, fits the limit, yet is excluded by the
unsynced-only query. -/
theorem c7_counterexample :
    prop7.synced = none ∧
    py_bool prop7.synced = false ∧
    (prop7 ∈ exDB7.properties) ∧
    exDB7.properties.length ≤ 10 ∧
    get_properties_rows exDB7 10 true = [] :=
  ⟨rfl, rfl, by decide, by decide, by decide⟩

/-- C7 (amended): with the unsynced-only flag set, the properties query
returns exactly properties whose stored synced column is the integer 0
(false) — those with a true or NULL synced column are excluded — within
the limit bound and ordered by last-seen time descending, omitting a
stored-false row only when the result is full of rows seen at least as
recently. -/
theorem c7_unsynced_filter (db : DB) (limit : Nat) :
    (∀ p ∈ get_properties_rows db limit true, p.synced = some 0) ∧
    List.Sorted (descBy PropertyRow.last_seen_at) (get_properties_rows db limit true) ∧
    ((get_properties_rows db limit true).length ≤ limit) ∧
    (∀ p ∈ db.properties, p.synced = some 0 →
      p ∉ get_properties_rows db limit true →
      (get_properties_rows db limit true).length = limit ∧
        ∀ y ∈ get_properties_rows db limit true, sqlLe p.last_seen_at y.last_seen_at) := by
  have hrw : get_properties_rows db limit true =
      ((db.properties.filter (fun p => p.synced == some 0)).insertionSort
        (descBy PropertyRow.last_seen_at)).take limit := rfl
  refine ⟨?_, ?_, ?_, ?_⟩
  · intro p hp
    rw [hrw] at hp
    have hpf := mem_of_mem_sortTake hp
    have := (List.mem_filter.mp hpf).2
    simpa using this
  · rw [hrw]
    exact sorted_take (List.sorted_insertionSort _ _) limit
  · rw [hrw]
    exact length_sortTake _ _
  · intro p hp hsync hnot
    rw [hrw] at hnot ⊢
    exact sortTake_full_of_notMem
      (List.mem_filter.mpr ⟨hp, by simp [hsync]⟩) hnot

theorem c7_witness :
    (prop7unsynced ∈ get_properties_rows exDB7w 10 true) ∧
    (prop7synced ∉ get_properties_rows exDB7w 10 true) ∧
    (∀ p ∈ get_properties_rows exDB7w 10 true, p.synced = some 0) ∧
    ((get_properties_rows exDB7w 10 true).length ≤ 10) :=
  ⟨by decide, by decide, (c7_unsynced_filter exDB7w 10).1,
   (c7_unsynced_filter exDB7w 10).2.2.1⟩

end Scrooper
